import Mathlib

/-!
Verification model of the financial-advisor agent repository.

Shallow embedding of:
* `src/lib/rag.ts` — `RAGService.searchRelevantContext`, `RAGService.simpleTextSearch`,
  `RAGService.getContextForQuestion`;
* `src/lib/agent.ts` — `FinancialAdvisorAgent.processMessage`,
  `FinancialAdvisorAgent.handleFallbackResponse`, `FinancialAdvisorAgent.executeToolCall`,
  `FinancialAdvisorAgent.processWebhookEvent`;
* `src/lib/gmail.ts` — `GmailService.createForUserWithSession` / `createForUser`
  (credential acquisition policy only).

External effects (OpenAI, Prisma, Google/HubSpot APIs) are modelled as oracle
environments: each awaited external call is a field holding its outcome
(`Except` for calls that may reject).  Machine floats (embedding vectors and
pgvector distances) carry no arithmetic relevant to any claim, so vectors are
represented as `List Int` and the distance operator is an arbitrary parameter
`d`; every theorem holds for all `d`.

JavaScript string primitives (`split(space)`, `toLowerCase()`, case-insensitive
substring match) are modelled by structurally recursive char-list functions so
that all definitions evaluate inside the kernel.
-/

/-- Lowercasing, modelling JS `toLowerCase()` (ASCII-faithful). -/
def lowerStr (s : String) : String := String.mk (s.toList.map Char.toLower)

/-- Accumulator loop for `splitCh`. -/
def splitChAux (sep : Char) : List Char → List Char → List String
  | [], acc => [String.mk acc.reverse]
  | c :: cs, acc =>
    if c == sep then String.mk acc.reverse :: splitChAux sep cs []
    else splitChAux sep cs (c :: acc)

/-- Split on a separator character, modelling JS `s.split(sep)`:
adjacent separators give empty segments and the empty string gives `[""]`. -/
def splitCh (s : String) (sep : Char) : List String := splitChAux sep s.toList []

/-- Char-list prefix test (both arguments explicit lists). -/
def startsWithList : List Char → List Char → Bool
  | [], _ => true
  | _ :: _, [] => false
  | a :: as, b :: bs => a == b && startsWithList as bs

/-- Char-list substring test: `infixOfList t l` holds when `t` occurs
contiguously inside `l`. -/
def infixOfList (t : List Char) : List Char → Bool
  | [] => startsWithList t []
  | b :: bs => startsWithList t (b :: bs) || infixOfList t bs

/-- Case-insensitive substring match, modelling Prisma
`{ contains: term, mode: insensitive }` where `term` is already lowercase. -/
def strContains (field term : String) : Bool :=
  infixOfList term.toList (lowerStr field).toList

/-- Row of the `EmailEmbedding` table (`prisma` model; written by
`RAGService.importEmails`).  The `from`/`to` columns are named `fromAddr` /
`toAddr` because `from` is a Lean keyword.  `embedding` is `none` when the
email was stored without a vector. -/
structure EmailRec where
  messageId : String
  userId : String
  subject : String
  fromAddr : String
  toAddr : String
  body : String
  date : Int
  embedding : Option (List Int)
deriving DecidableEq, Repr

/-- Row of the `HubSpotContactEmbedding` table (written by
`RAGService.importHubSpotContacts`).  Nullable text columns are modelled as
plain strings (a SQL NULL behaves like `""` for the substring matching used
here, since every search term is non-empty). -/
structure ContactRec where
  contactId : String
  userId : String
  firstName : String
  lastName : String
  email : String
  phone : String
  company : String
  notes : String
  createdAt : Int
  embedding : Option (List Int)
deriving DecidableEq, Repr

/-- The two corpora of `RetrievableItem`s visible to `RAGService`. -/
structure DB where
  emails : List EmailRec
  contacts : List ContactRec
deriving DecidableEq, Repr

/-- An email hit as built by `searchRelevantContext` / `simpleTextSearch`:
`{ type: email, content, metadata: { subject, from, date }, score }`.
`score` is `none` when the SQL distance was NULL (vector search over a row
with no embedding) and `some 0` on the lexical path. -/
structure EmailHit where
  content : String
  subject : String
  fromAddr : String
  date : Int
  score : Option Int
deriving DecidableEq, Repr

/-- A contact hit; `metadata` is the whole contact row in the source, kept
here as the `contact` field. -/
structure ContactHit where
  content : String
  contact : ContactRec
  score : Option Int
deriving DecidableEq, Repr

/-- Result shape of `searchRelevantContext` and `simpleTextSearch`:
`{ emails: [...], contacts: [...] }`. -/
structure SearchResult where
  emails : List EmailHit
  contacts : List ContactHit
deriving DecidableEq, Repr

/-- Content string of an email hit, exactly as interpolated in the source. -/
def emailContent (e : EmailRec) : String :=
  "Subject: " ++ e.subject ++ "\nFrom: " ++ e.fromAddr ++ "\nTo: " ++ e.toAddr
    ++ "\nBody: " ++ e.body

/-- Content string of a contact hit, exactly as interpolated in the source. -/
def contactContent (c : ContactRec) : String :=
  "Name: " ++ c.firstName ++ " " ++ c.lastName ++ "\nEmail: " ++ c.email
    ++ "\nCompany: " ++ c.company ++ "\nNotes: " ++ c.notes

/-- SQL `expr <=> query` on a nullable vector column: the operator is strict,
so a NULL embedding yields a NULL distance. -/
def vecDist (d : List Int → List Int → Int) (e : Option (List Int)) (q : List Int) :
    Option Int :=
  e.map (fun v => d v q)

/-- Ordering of nullable sort keys under Postgres `ORDER BY expr ASC`
(default NULLS LAST): every non-NULL key precedes every NULL key. -/
def sqlAscLe : Option Int → Option Int → Prop
  | _, none => True
  | none, some _ => False
  | some a, some b => a ≤ b

instance : DecidableRel sqlAscLe := fun a b => by
  cases a <;> cases b <;> simp [sqlAscLe] <;> infer_instance

/-- Postgres `ORDER BY key ASC` over a nullable key (default NULLS LAST):
rows with a non-NULL key sorted ascending, followed by the NULL-key rows. -/
def pgOrderAsc {α : Type} (key : α → Option Int) (rows : List α) : List α :=
  List.insertionSort (fun a b => sqlAscLe (key a) (key b))
      (rows.filter (fun r => (key r).isSome))
    ++ rows.filter (fun r => (key r).isNone)

/-- The email similarity query of `searchRelevantContext` (raw SQL):
`SELECT ... WHERE "userId" = uid ORDER BY embedding <=> q LIMIT limit`.
Note the WHERE clause does not exclude rows with a NULL embedding. -/
def emailSimilarityQuery (d : List Int → List Int → Int) (db : DB) (uid : String)
    (q : List Int) (limit : Nat) : List EmailRec :=
  (pgOrderAsc (fun e => vecDist d e.embedding q)
    (db.emails.filter (fun e => e.userId == uid))).take limit

/-- The contact similarity query of `searchRelevantContext` (raw SQL), same
shape as the email one. -/
def contactSimilarityQuery (d : List Int → List Int → Int) (db : DB) (uid : String)
    (q : List Int) (limit : Nat) : List ContactRec :=
  (pgOrderAsc (fun c => vecDist d c.embedding q)
    (db.contacts.filter (fun c => c.userId == uid))).take limit

/-- Mapping of a similarity email row to a hit (`score: email.distance`). -/
def emailSimHit (d : List Int → List Int → Int) (q : List Int) (e : EmailRec) : EmailHit :=
  { content := emailContent e, subject := e.subject, fromAddr := e.fromAddr,
    date := e.date, score := vecDist d e.embedding q }

/-- Mapping of a similarity contact row to a hit (`score: contact.distance`). -/
def contactSimHit (d : List Int → List Int → Int) (q : List Int) (c : ContactRec) :
    ContactHit :=
  { content := contactContent c, contact := c, score := vecDist d c.embedding q }

/-- Search terms of `simpleTextSearch`:
`query.toLowerCase().split(space).filter(term => term.length > 2)`. -/
def splitTerms (query : String) : List String :=
  (splitCh (lowerStr query) ' ').filter (fun t => t.length > 2)

/-- The Prisma `where` clause of the email branch of `simpleTextSearch`: some
term is a case-insensitive substring of subject, body or from.  An empty term
list is Prisma `OR: []`, which matches no record. -/
def emailMatches (terms : List String) (e : EmailRec) : Bool :=
  terms.any (fun t =>
    strContains e.subject t || strContains e.body t || strContains e.fromAddr t)

/-- The Prisma `where` clause of the contact branch of `simpleTextSearch`. -/
def contactMatches (terms : List String) (c : ContactRec) : Bool :=
  terms.any (fun t =>
    strContains c.firstName t || strContains c.lastName t || strContains c.email t
      || strContains c.company t || strContains c.notes t)

/-- `prisma.emailEmbedding.findMany` of `simpleTextSearch`: filter by user and
match condition, `orderBy: { date: desc }`, `take: limit`. -/
def emailFindMany (db : DB) (uid : String) (terms : List String) (limit : Nat) :
    List EmailRec :=
  (List.insertionSort (fun a b : EmailRec => b.date ≤ a.date)
    (db.emails.filter (fun e => e.userId == uid && emailMatches terms e))).take limit

/-- `prisma.hubSpotContactEmbedding.findMany` of `simpleTextSearch`:
`orderBy: { createdAt: desc }`, `take: limit`. -/
def contactFindMany (db : DB) (uid : String) (terms : List String) (limit : Nat) :
    List ContactRec :=
  (List.insertionSort (fun a b : ContactRec => b.createdAt ≤ a.createdAt)
    (db.contacts.filter (fun c => c.userId == uid && contactMatches terms c))).take limit

/-- An email hit of the lexical path (`score: 0`). -/
def emailTextHit (e : EmailRec) : EmailHit :=
  { content := emailContent e, subject := e.subject, fromAddr := e.fromAddr,
    date := e.date, score := some 0 }

/-- A contact hit of the lexical path (`score: 0`). -/
def contactTextHit (c : ContactRec) : ContactHit :=
  { content := contactContent c, contact := c, score := some 0 }

/-- Oracle environment for `RAGService`: the constructor flag and the outcome
of each external await.  A `some msg` failure field means the corresponding
database query rejects with that error. -/
structure RagEnv where
  isOpenAIAvailable : Bool
  embedOutcome : Except String (List Int)
  emailQueryFail : Option String
  contactQueryFail : Option String
  emailFindFail : Option String
  contactFindFail : Option String

/-- `RAGService.simpleTextSearch`: lexical fallback.  The whole body is inside
one `try`; if either `findMany` rejects, the `catch` returns
`{ emails: [], contacts: [] }`. -/
def simpleTextSearch (env : RagEnv) (db : DB) (uid query : String) (limit : Nat) :
    SearchResult :=
  let terms := splitTerms query
  match env.emailFindFail with
  | some _ => { emails := [], contacts := [] }
  | none =>
    match env.contactFindFail with
    | some _ => { emails := [], contacts := [] }
    | none =>
      { emails := (emailFindMany db uid terms limit).map emailTextHit,
        contacts := (contactFindMany db uid terms limit).map contactTextHit }

/-- `RAGService.searchRelevantContext` as the promise it returns: `.error`
would be a rejection escaping the method.  The body mirrors the source:
unavailable provider goes straight to `simpleTextSearch`; otherwise embed the
query and run the two raw similarity queries; any rejection inside the `try`
is caught and answered by `simpleTextSearch` (which itself never rejects). -/
def searchRelevantContextE (d : List Int → List Int → Int) (env : RagEnv) (db : DB)
    (uid query : String) (limit : Nat) : Except String SearchResult :=
  let attempt : Except String SearchResult :=
    if !env.isOpenAIAvailable then
      Except.ok (simpleTextSearch env db uid query limit)
    else
      match env.embedOutcome with
      | Except.error e => Except.error e
      | Except.ok q =>
        match env.emailQueryFail with
        | some e => Except.error e
        | none =>
          match env.contactQueryFail with
          | some e => Except.error e
          | none =>
            Except.ok
              { emails := (emailSimilarityQuery d db uid q limit).map (emailSimHit d q),
                contacts :=
                  (contactSimilarityQuery d db uid q limit).map (contactSimHit d q) }
  match attempt with
  | Except.ok r => Except.ok r
  | Except.error _ => Except.ok (simpleTextSearch env db uid query limit)

/-- `RAGService.getContextForQuestion`: joins email hits then contact hits,
each prefixed with its corpus label, separated by blank lines.  The limit is
hard-coded to 10 in the source. -/
def getContextForQuestion (d : List Int → List Int → Int) (env : RagEnv) (db : DB)
    (uid question : String) : Except String String :=
  match searchRelevantContextE d env db uid question 10 with
  | Except.error e => Except.error e
  | Except.ok results =>
    Except.ok (String.intercalate "\n\n"
      ((results.emails.map (fun r => "Email: " ++ r.content))
        ++ (results.contacts.map (fun r => "Contact: " ++ r.content))))

/-- A model-issued tool invocation (`tool_call` of the chat completion):
`id`, `function.name`, and the raw JSON `function.arguments` string. -/
structure ToolCall where
  id : String
  name : String
  arguments : String
deriving DecidableEq, Repr

/-- Opaque stand-in for a parsed argument object (`JSON.parse(args)`); field
access on it is folded into the per-tool handler oracles. -/
abbrev Args := String

/-- Opaque stand-in for a tool handler success payload. -/
abbrev Value := String

/-- Body of a tool-result message pushed by the loop in `processMessage`:
`JSON.stringify(result)` on success, `JSON.stringify({ error: message })`
when the handler threw. -/
inductive ToolContent where
  | success (v : Value)
  | failure (msg : String)
deriving DecidableEq, Repr

/-- One entry of `toolResults`: `{ tool_call_id, role: tool, content }`. -/
structure ToolResult where
  tool_call_id : String
  content : ToolContent
deriving DecidableEq, Repr

/-- Oracle environment for `executeToolCall` and the Gmail credential logic.
`sessionAttempt` is the outcome of building a Gmail client from the
per-request session token and probing it with `users.getProfile`
(`GmailService.createForUserWithSession`, first half); `storedAttempts n` is
the outcome of the `n`-th `GmailService.createForUser` call of the current
tool call (reading the stored database token).  Each remaining field bundles
one handler: service construction plus the single collaborator call, as an
`Except` that rejects when either throws. -/
structure ToolEnv where
  parse : String → Except String Args
  sessionToken : Option String
  sessionAttempt : Except String String
  storedAttempts : Nat → Except String String
  searchMessages : String → Args → Except String Value
  sendEmail : String → Args → Except String Value
  searchContacts : Args → Except String Value
  createContact : Args → Except String Value
  updateContact : Args → Except String Value
  addContactNote : Args → Except String Value
  getAvailableSlots : Args → Except String Value
  createCalendarEvent : Args → Except String Value
  searchCalendarEvents : Args → Except String Value
  createTask : Args → Except String Value
  updateTask : Args → Except String Value

/-- `GmailService.createForUserWithSession`: try the session token (client
construction plus `getProfile` probe); on any failure, fall back to
`createForUser` — the first stored-token read of this tool call. -/
def createForUserWithSession (env : ToolEnv) : Except String String :=
  match env.sessionAttempt with
  | Except.ok g => Except.ok g
  | Except.error _ => env.storedAttempts 0

/-- Gmail client acquisition as performed inline by the `search_emails` and
`send_email` cases of `executeToolCall`: with a session token, call
`createForUserWithSession` and, if that rejects, catch and call
`createForUser` once more; without a session token, call `createForUser`
directly. -/
def acquireGmail (env : ToolEnv) : Except String String :=
  match env.sessionToken with
  | none => env.storedAttempts 0
  | some _ =>
    match createForUserWithSession env with
    | Except.ok g => Except.ok g
    | Except.error _ => env.storedAttempts 1

/-- `acquireGmail` instrumented with the number of `createForUser`
(stored-database-token) calls it performs. -/
def acquireGmailCounted (env : ToolEnv) : Except String String × Nat :=
  match env.sessionToken with
  | none => (env.storedAttempts 0, 1)
  | some _ =>
    match env.sessionAttempt with
    | Except.ok g => (Except.ok g, 0)
    | Except.error _ =>
      match env.storedAttempts 0 with
      | Except.ok g => (Except.ok g, 1)
      | Except.error _ => (env.storedAttempts 1, 2)

/-- The eleven tool names of the `switch` in `executeToolCall` (also the
names declared to the model by `getTools`). -/
def supportedToolNames : List String :=
  ["search_emails", "search_contacts", "create_contact", "update_contact",
   "add_contact_note", "send_email", "get_available_slots",
   "create_calendar_event", "search_calendar_events", "create_task",
   "update_task"]

/-- `FinancialAdvisorAgent.executeToolCall`: parse the argument JSON (a throw
here rejects the whole call), then dispatch on the tool name; the `default`
branch throws `Unknown tool: <name>`. -/
def executeToolCall (env : ToolEnv) (tc : ToolCall) : Except String Value :=
  match env.parse tc.arguments with
  | Except.error e => Except.error e
  | Except.ok args =>
    if tc.name == "search_emails" then
      match acquireGmail env with
      | Except.error e => Except.error e
      | Except.ok svc => env.searchMessages svc args
    else if tc.name == "search_contacts" then env.searchContacts args
    else if tc.name == "create_contact" then env.createContact args
    else if tc.name == "update_contact" then env.updateContact args
    else if tc.name == "add_contact_note" then env.addContactNote args
    else if tc.name == "send_email" then
      match acquireGmail env with
      | Except.error e => Except.error e
      | Except.ok svc => env.sendEmail svc args
    else if tc.name == "get_available_slots" then env.getAvailableSlots args
    else if tc.name == "create_calendar_event" then env.createCalendarEvent args
    else if tc.name == "search_calendar_events" then env.searchCalendarEvents args
    else if tc.name == "create_task" then env.createTask args
    else if tc.name == "update_task" then env.updateTask args
    else Except.error ("Unknown tool: " ++ tc.name)

/-- The per-invocation wrapper of the tool loop in `processMessage`: a
successful handler value or the message of the thrown error, tagged with the
id of the invocation. -/
def mkToolResult (exec : ToolCall → Except String Value) (tc : ToolCall) : ToolResult :=
  { tool_call_id := tc.id,
    content :=
      match exec tc with
      | Except.ok v => ToolContent.success v
      | Except.error e => ToolContent.failure e }

/-- The `for (const toolCall of messageResponse.tool_calls)` loop of
`processMessage`: each invocation is executed inside its own try/catch and
pushes exactly one result; a failure never stops the loop. -/
def runToolLoop (exec : ToolCall → Except String Value) : List ToolCall → List ToolResult
  | [] => []
  | tc :: rest => mkToolResult exec tc :: runToolLoop exec rest

/-- The `for (const toolCall of action.toolCalls)` loop of
`processWebhookEvent`, traced by the invocations actually dispatched: there
is no per-invocation try/catch, so the first rejecting invocation throws out
of the loop (into the surrounding catch) and the rest never run. -/
def webhookToolLoop (exec : ToolCall → Except String Value) :
    List ToolCall → List ToolCall
  | [] => []
  | tc :: rest =>
    match exec tc with
    | Except.ok _ => tc :: webhookToolLoop exec rest
    | Except.error _ => [tc]

/-- A thrown JS error as inspected by the agent: its message and optional
`code` property. -/
structure JsErr where
  message : String
  code : Option String
deriving DecidableEq, Repr

/-- The region check `error.code` being the region-restriction code
performed by both catch blocks of `processMessage`. -/
def isRegionErr (e : JsErr) : Bool :=
  e.code == some "unsupported_country_region_territory"

/-- The user row consulted for `ongoingInstructions`. -/
structure UserRec where
  ongoingInstructions : Option String
deriving DecidableEq, Repr

/-- A chat-completion message as consumed by the agent: nullable `content`
and nullable `tool_calls` (`none` models JS null/undefined; `some []` models
a present but empty array, which is truthy in JS). -/
structure ModelMsg where
  content : Option String
  tool_calls : Option (List ToolCall)
deriving DecidableEq, Repr

/-- The object returned by `processMessage` (and, with `toolResults = []`,
by `handleFallbackResponse`, whose JS object carries no `toolResults` or
`meetingData` keys). -/
structure AgentResp where
  content : Option String
  toolCalls : Option (List ToolCall)
  toolResults : List ToolResult
  meetingData : Option Value
deriving DecidableEq, Repr

/-- Observable side effects of one `processMessage`/webhook run:
how many chat-completion requests were issued and which tool invocations
were dispatched to `executeToolCall`. -/
structure Trace where
  modelCalls : Nat
  executedTools : List ToolCall
deriving DecidableEq, Repr

/-- Oracle environment for `FinancialAdvisorAgent`: the constructor flag, the
RAG service state, the database, and the outcome of each awaited external
call (`prisma.user.findUnique`, and the first and second chat-completion
requests of the turn). -/
structure AgentEnv where
  isOpenAIAvailable : Bool
  dist : List Int → List Int → Int
  ragEnv : RagEnv
  db : DB
  userId : String
  userLookup : Except JsErr (Option UserRec)
  firstResponse : Except JsErr ModelMsg
  secondResponse : Except JsErr ModelMsg
  toolEnv : ToolEnv

/-- JS truthiness of `user?.ongoingInstructions`. -/
def userInstructions (u : Option UserRec) : Option String :=
  match u with
  | some r =>
    match r.ongoingInstructions with
    | some s => if s == "" then none else some s
    | none => none
  | none => none

/-- The fallback reply text built by `handleFallbackResponse`: echo of the
question, the context block if truthy, the ongoing instructions if truthy,
and the fixed capability footer. -/
def fallbackContent (message ctx : String) (instr : Option String) : String :=
  let r0 := "I understand you\x27re asking about: " ++ message ++ "\n\n"
  let r1 :=
    if ctx != "" then
      r0 ++ "Based on your data, here\x27s what I found:\n" ++ ctx ++ "\n\n"
    else r0
  let r2 :=
    match instr with
    | some s => r1 ++ "Your ongoing instructions: " ++ s ++ "\n\n"
    | none => r1
  r2 ++ "I can help you with:\n• Searching through your emails\n• Managing your contacts\n• Scheduling appointments\n• Sending emails\n\nNote: AI-powered features are currently limited due to regional restrictions. Basic functionality is still available."

/-- The reply returned by the catch branch of `handleFallbackResponse`. -/
def techDifficultiesResp : AgentResp :=
  { content := some "I\x27m sorry, I\x27m experiencing technical difficulties. Please try again later or contact support.",
    toolCalls := some [], toolResults := [], meetingData := none }

/-- `FinancialAdvisorAgent.handleFallbackResponse`: gather context (the
degraded-tolerant retriever) and the stored user instructions, then synthesize the
templated reply; any rejection inside is caught and answered with the fixed
technical-difficulties reply.  Issues no tool invocation and no model call. -/
def handleFallbackResponse (env : AgentEnv) (message : String) : AgentResp :=
  match getContextForQuestion env.dist env.ragEnv env.db env.userId message with
  | Except.error _ => techDifficultiesResp
  | Except.ok ctx =>
    match env.userLookup with
    | Except.error _ => techDifficultiesResp
    | Except.ok user =>
      { content := some (fallbackContent message ctx (userInstructions user)),
        toolCalls := some [], toolResults := [], meetingData := none }

/-- The meeting-data post-processing of `processMessage`: present only when a
`search_calendar_events` invocation exists, its result is found, and that
result is a success (no `error` key); the display projection of the events is
abstracted to the raw payload. -/
def computeMeetingData (calls : List ToolCall) (results : List ToolResult) :
    Option Value :=
  match calls.find? (fun tc => tc.name == "search_calendar_events") with
  | none => none
  | some cs =>
    match results.find? (fun tr => tr.tool_call_id == cs.id) with
    | none => none
    | some tr =>
      match tr.content with
      | ToolContent.success v => some v
      | ToolContent.failure _ => none

/-- The outer catch of `processMessage`: a region-classified error degrades to
the fallback reply; anything else is rethrown to the caller. -/
def outerCatch (env : AgentEnv) (message : String) (e : JsErr) (t : Trace) :
    Except JsErr (AgentResp × Trace) :=
  if isRegionErr e then Except.ok (handleFallbackResponse env message, t)
  else Except.error e

/-- `FinancialAdvisorAgent.processMessage`, paired with its effect trace.
Mirrors the source: unavailable provider short-circuits to the fallback;
otherwise gather context and the user row, issue the first chat completion
(its inner catch sends region errors to the fallback and rethrows the rest),
run the tool loop when `tool_calls` is truthy, issue the single second
completion, attach the meeting projection; every rethrow reaches the outer
catch.  The conversation-history parameter only feeds prompt assembly, which
no claim concerns. -/
def processMessage (env : AgentEnv) (message : String)
    (_conversationHistory : List ModelMsg) : Except JsErr (AgentResp × Trace) :=
  if !env.isOpenAIAvailable then
    Except.ok (handleFallbackResponse env message, ⟨0, []⟩)
  else
    match getContextForQuestion env.dist env.ragEnv env.db env.userId message with
    | Except.error e => outerCatch env message ⟨e, none⟩ ⟨0, []⟩
    | Except.ok _ctx =>
      match env.userLookup with
      | Except.error e => outerCatch env message e ⟨0, []⟩
      | Except.ok _user =>
        match env.firstResponse with
        | Except.error e =>
          if isRegionErr e then Except.ok (handleFallbackResponse env message, ⟨1, []⟩)
          else outerCatch env message e ⟨1, []⟩
        | Except.ok msgResp =>
          match msgResp.tool_calls with
          | some calls =>
            let results := runToolLoop (executeToolCall env.toolEnv) calls
            match env.secondResponse with
            | Except.error e => outerCatch env message e ⟨2, calls⟩
            | Except.ok finalMsg =>
              Except.ok
                ({ content := finalMsg.content, toolCalls := some calls,
                   toolResults := results,
                   meetingData := computeMeetingData calls results }, ⟨2, calls⟩)
          | none =>
            Except.ok
              ({ content := msgResp.content, toolCalls := none, toolResults := [],
                 meetingData := none }, ⟨1, []⟩)

/-- The structured action object parsed from the webhook model reply
(`JSON.parse`): an optional `toolCalls` array. -/
structure ActionObj where
  toolCalls : Option (List ToolCall)
deriving DecidableEq, Repr

/-- Oracle environment for `processWebhookEvent`. -/
structure WebhookEnv where
  isOpenAIAvailable : Bool
  userLookup : Except JsErr (Option UserRec)
  response : Except JsErr (Option String)
  parseAction : String → Except String ActionObj
  toolEnv : ToolEnv

/-- JS content-or-empty-object defaulting applied to the nullable model reply. -/
def contentOrEmptyObj (c : Option String) : String :=
  match c with
  | some s => if s == "" then "\x7b\x7d" else s
  | none => "\x7b\x7d"

/-- The try block of `processWebhookEvent`: no-ops when the provider is
unavailable, the user has no truthy instructions, the model answers the
`NO_ACTION` sentinel, the action does not parse, or it carries no invocation
list; otherwise it runs the webhook tool loop.  Its inner catch swallows both
parse errors and any error thrown by an executed invocation (aborting the
remainder of the list); rejections of the user lookup or of the completion
request escape to the outer catch. -/
def webhookTryBlock (env : WebhookEnv) : Except JsErr (List ToolCall) :=
  if !env.isOpenAIAvailable then Except.ok []
  else
    match env.userLookup with
    | Except.error e => Except.error e
    | Except.ok user =>
      match userInstructions user with
      | none => Except.ok []
      | some _ =>
        match env.response with
        | Except.error e => Except.error e
        | Except.ok content =>
          if content == some "NO_ACTION" then Except.ok []
          else
            match env.parseAction (contentOrEmptyObj content) with
            | Except.error _ => Except.ok []
            | Except.ok action =>
              match action.toolCalls with
              | none => Except.ok []
              | some calls =>
                Except.ok (webhookToolLoop (executeToolCall env.toolEnv) calls)

/-- `FinancialAdvisorAgent.processWebhookEvent`, returning the list of tool
invocations dispatched: the try block wrapped in the outer catch, which logs
and swallows every rejection, so the promise always resolves. -/
def processWebhookEvent (env : WebhookEnv) (_eventType _payload : String) :
    Except JsErr (List ToolCall) :=
  match webhookTryBlock env with
  | Except.ok r => Except.ok r
  | Except.error _ => Except.ok []

/-- Concrete argument parser sample: rejects the empty string the way
`JSON.parse("")` throws, accepts other argument strings verbatim. -/
def parseW : String → Except String Args := fun s =>
  if s == "" then Except.error "SyntaxError: Unexpected end of JSON input"
  else Except.ok s

/-- Concrete tool environment: no session token, stored token works, every
handler succeeds except the HubSpot contact search, which throws. -/
def toolEnvW : ToolEnv :=
  { parse := parseW,
    sessionToken := none,
    sessionAttempt := Except.error "no session token supplied",
    storedAttempts := fun _ => Except.ok "gmail-db-client",
    searchMessages := fun _ _ => Except.ok "messages-found",
    sendEmail := fun _ _ => Except.ok "message-sent",
    searchContacts := fun _ => Except.error "HubSpot not connected for this user",
    createContact := fun _ => Except.ok "contact-created",
    updateContact := fun _ => Except.ok "contact-updated",
    addContactNote := fun _ => Except.ok "note-added",
    getAvailableSlots := fun _ => Except.ok "slots",
    createCalendarEvent := fun _ => Except.ok "event-created",
    searchCalendarEvents := fun _ => Except.ok "events-found",
    createTask := fun _ => Except.ok "task-created",
    updateTask := fun _ => Except.ok "task-updated" }

/-- Tool environment where every handler succeeds. -/
def toolEnvOkW : ToolEnv :=
  { toolEnvW with searchContacts := fun _ => Except.ok "contacts-found" }

/-- Tool environment with a session token whose validation fails and a stored
database token that is missing, so every Gmail acquisition attempt fails. -/
def toolEnvBothFailW : ToolEnv :=
  { toolEnvW with
      sessionToken := some "sess-tok",
      sessionAttempt := Except.error "Invalid Credentials",
      storedAttempts := fun _ =>
        Except.error "Gmail not connected for this user. Please sign in with Google to connect your Gmail account." }

/-- RAG oracle sample: embedding provider available and no query failure. -/
def ragAvailEnvW : RagEnv :=
  { isOpenAIAvailable := true, embedOutcome := Except.ok [1],
    emailQueryFail := none, contactQueryFail := none,
    emailFindFail := none, contactFindFail := none }

/-- A stored email that has no embedding vector. -/
def emailNoVecW : EmailRec :=
  { messageId := "m1", userId := "u", subject := "Quarterly review",
    fromAddr := "alice@example.com", toAddr := "advisor@example.com",
    body := "Planning the quarterly portfolio review", date := 100,
    embedding := none }

/-- A corpus holding exactly one email, which has no embedding vector. -/
def dbNoVecW : DB := { emails := [emailNoVecW], contacts := [] }

/-- Two sample invocations: the first one fails under `toolEnvW` (its HubSpot
handler throws), the second succeeds. -/
def tcSearchContactsW : ToolCall := { id := "1", name := "search_contacts", arguments := "\x7b\x7d" }

/-- Companion invocation to `tcSearchContactsW`; succeeds under `toolEnvW`. -/
def tcCreateContactW : ToolCall := { id := "2", name := "create_contact", arguments := "\x7b\x7d" }

/-- Agent environment: provider available, model first answers with two tool
invocations, then (after the outcomes) with a final text that itself carries
another tool invocation, which must never run. -/
def agentEnvW : AgentEnv :=
  { isOpenAIAvailable := true, dist := fun _ _ => 0, ragEnv := ragAvailEnvW,
    db := dbNoVecW, userId := "u",
    userLookup := Except.ok (some { ongoingInstructions := some "Log every client interaction" }),
    firstResponse := Except.ok
      { content := none, tool_calls := some [tcSearchContactsW, tcCreateContactW] },
    secondResponse := Except.ok
      { content := some "Done.",
        tool_calls := some [{ id := "3", name := "send_email", arguments := "\x7b\x7d" }] },
    toolEnv := toolEnvW }

/-- Agent environment with the completion provider flagged unavailable. -/
def agentEnvOffW : AgentEnv :=
  { agentEnvW with
    isOpenAIAvailable := false,
    firstResponse := Except.error { message := "unreachable", code := none },
    secondResponse := Except.error { message := "unreachable", code := none } }

/-- Webhook environment whose structured action carries two invocations, the
first of which fails under `toolEnvW`. -/
def webhookEnvFailW : WebhookEnv :=
  { isOpenAIAvailable := true,
    userLookup := Except.ok (some { ongoingInstructions := some "When a contact changes, record a note" }),
    response := Except.ok (some "act"),
    parseAction := fun _ => Except.ok { toolCalls := some [tcSearchContactsW, tcCreateContactW] },
    toolEnv := toolEnvW }

/-- Webhook environment whose structured action carries two invocations that
both succeed. -/
def webhookEnvOkW : WebhookEnv :=
  { webhookEnvFailW with toolEnv := toolEnvOkW }

/-- A two-email, two-contact corpus for exercising the lexical path. -/
def dbLexW : DB :=
  { emails :=
      [{ messageId := "m2", userId := "u", subject := "Quarterly planning",
         fromAddr := "bob@example.com", toAddr := "advisor@example.com",
         body := "old quarterly numbers", date := 50, embedding := none },
       emailNoVecW],
    contacts :=
      [{ contactId := "c1", userId := "u", firstName := "John", lastName := "Smith",
         email := "john@example.com", phone := "555", company := "Acme",
         notes := "quarterly check-in", createdAt := 10, embedding := none },
       { contactId := "c2", userId := "u", firstName := "Jane", lastName := "Doe",
         email := "jane@example.com", phone := "556", company := "Globex",
         notes := "quarterly review", createdAt := 20, embedding := none }] }

/-- Helper: `searchRelevantContext` resolves for every oracle behaviour
(every rejection inside is caught). -/
theorem searchRelevantContextE_ok (d : List Int → List Int → Int) (env : RagEnv)
    (db : DB) (uid query : String) (limit : Nat) :
    ∃ r, searchRelevantContextE d env db uid query limit = Except.ok r := by
  rcases env with ⟨avail, embed, eqf, cqf, eff, cff⟩
  cases avail <;> cases embed <;> cases eqf <;> cases cqf <;> exact ⟨_, rfl⟩

/-- Helper: `getContextForQuestion` resolves for every oracle behaviour. -/
theorem getContextForQuestion_ok (d : List Int → List Int → Int) (env : RagEnv)
    (db : DB) (uid question : String) :
    ∃ s, getContextForQuestion d env db uid question = Except.ok s := by
  obtain ⟨r, hr⟩ := searchRelevantContextE_ok d env db uid question 10
  refine ⟨String.intercalate "\n\n"
      ((r.emails.map (fun x => "Email: " ++ x.content))
        ++ (r.contacts.map (fun x => "Contact: " ++ x.content))), ?_⟩
  unfold getContextForQuestion
  rw [hr]

/-- C3: for every user id, query and limit, the context retriever never
raises past its boundary — it resolves with a pair of lists under every
oracle behaviour (provider available, unavailable, or any query rejecting),
and an empty corpus yields empty lists rather than an error. -/
theorem searchRelevantContext_never_raises :
    (∀ (d : List Int → List Int → Int) (env : RagEnv) (db : DB) (uid query : String)
        (limit : Nat), ∃ r, searchRelevantContextE d env db uid query limit = Except.ok r) ∧
    (∀ (d : List Int → List Int → Int) (env : RagEnv) (uid query : String) (limit : Nat),
        searchRelevantContextE d env { emails := [], contacts := [] } uid query limit =
          Except.ok { emails := [], contacts := [] }) := by
  constructor
  · exact searchRelevantContextE_ok
  · intro d env uid query limit
    rcases env with ⟨avail, embed, eqf, cqf, eff, cff⟩
    cases avail <;> cases embed <;> cases eqf <;> cases cqf <;> cases eff <;> cases cff <;>
      simp [searchRelevantContextE, simpleTextSearch, emailFindMany, contactFindMany,
        emailSimilarityQuery, contactSimilarityQuery, pgOrderAsc, splitTerms,
        List.insertionSort]

/-- C7: every hit of the lexical search path carries score 0, and within each
corpus the hits are ordered by recency descending — emails by message date,
contacts by record creation time, the only timestamp kept for a contact. -/
theorem lexical_hits_score_zero_and_recency_desc (env : RagEnv) (db : DB)
    (uid query : String) (limit : Nat) :
    (∀ h ∈ (simpleTextSearch env db uid query limit).emails, h.score = some 0) ∧
    (∀ h ∈ (simpleTextSearch env db uid query limit).contacts, h.score = some 0) ∧
    (simpleTextSearch env db uid query limit).emails.Pairwise
      (fun a b => b.date ≤ a.date) ∧
    (simpleTextSearch env db uid query limit).contacts.Pairwise
      (fun a b => b.contact.createdAt ≤ a.contact.createdAt) := by
  rcases env with ⟨avail, embed, eqf, cqf, eff, cff⟩
  cases eff with
  | some e => simp [simpleTextSearch]
  | none =>
    cases cff with
    | some e => simp [simpleTextSearch]
    | none =>
      refine ⟨?_, ?_, ?_, ?_⟩
      · intro h hm
        simp only [simpleTextSearch] at hm
        obtain ⟨e, _, rfl⟩ := List.mem_map.1 hm
        rfl
      · intro h hm
        simp only [simpleTextSearch] at hm
        obtain ⟨c, _, rfl⟩ := List.mem_map.1 hm
        rfl
      · show (List.map emailTextHit (emailFindMany db uid (splitTerms query) limit)).Pairwise _
        haveI : IsTotal EmailRec (fun a b => b.date ≤ a.date) :=
          ⟨fun a b => le_total b.date a.date⟩
        haveI : IsTrans EmailRec (fun a b => b.date ≤ a.date) :=
          ⟨fun _ _ _ h1 h2 => le_trans h2 h1⟩
        have hs := List.sorted_insertionSort (fun a b : EmailRec => b.date ≤ a.date)
          (db.emails.filter (fun e => e.userId == uid && emailMatches (splitTerms query) e))
        have ht : (emailFindMany db uid (splitTerms query) limit).Pairwise
            (fun a b : EmailRec => b.date ≤ a.date) :=
          List.Pairwise.sublist (List.take_sublist _ _) hs
        exact List.Pairwise.map emailTextHit (fun _ _ hab => hab) ht
      · show (List.map contactTextHit (contactFindMany db uid (splitTerms query) limit)).Pairwise _
        haveI : IsTotal ContactRec (fun a b => b.createdAt ≤ a.createdAt) :=
          ⟨fun a b => le_total b.createdAt a.createdAt⟩
        haveI : IsTrans ContactRec (fun a b => b.createdAt ≤ a.createdAt) :=
          ⟨fun _ _ _ h1 h2 => le_trans h2 h1⟩
        have hs := List.sorted_insertionSort (fun a b : ContactRec => b.createdAt ≤ a.createdAt)
          (db.contacts.filter (fun c => c.userId == uid && contactMatches (splitTerms query) c))
        have ht : (contactFindMany db uid (splitTerms query) limit).Pairwise
            (fun a b : ContactRec => b.createdAt ≤ a.createdAt) :=
          List.Pairwise.sublist (List.take_sublist _ _) hs
        exact List.Pairwise.map contactTextHit (fun _ _ hab => hab) ht

/-- C10: when no space-separated token of the query is longer than two
characters, the lexical path builds an empty disjunction (Prisma `OR: []`,
which matches no record) and returns empty lists for both corpora, whatever
the corpora hold. -/
theorem short_tokens_match_nothing (env : RagEnv) (db : DB) (uid query : String)
    (limit : Nat) (hshort : ∀ t ∈ splitCh (lowerStr query) ' ', t.length ≤ 2) :
    simpleTextSearch env db uid query limit = { emails := [], contacts := [] } := by
  have hterms : splitTerms query = [] := by
    rw [splitTerms]
    rw [List.filter_eq_nil_iff]
    intro t ht
    simp only [decide_eq_true_eq]
    exact Nat.not_lt.2 (hshort t ht)
  rcases env with ⟨avail, embed, eqf, cqf, eff, cff⟩
  cases eff with
  | some e => rfl
  | none =>
    cases cff with
    | some e => rfl
    | none =>
      have he : emailFindMany db uid (splitTerms query) limit = [] := by
        rw [hterms, emailFindMany]
        have hf : db.emails.filter (fun e => e.userId == uid && emailMatches [] e) = [] := by
          rw [List.filter_eq_nil_iff]
          intro a _
          simp [emailMatches]
        rw [hf]
        simp [List.insertionSort]
      have hc : contactFindMany db uid (splitTerms query) limit = [] := by
        rw [hterms, contactFindMany]
        have hf : db.contacts.filter
            (fun c => c.userId == uid && contactMatches [] c) = [] := by
          rw [List.filter_eq_nil_iff]
          intro a _
          simp [contactMatches]
        rw [hf]
        simp [List.insertionSort]
      simp [simpleTextSearch, he, hc]

/-- Witness for C10: a concrete non-empty corpus and the query "a to do",
whose tokens are all short, returning no hits at all. -/
theorem short_tokens_match_nothing_witness :
    0 < dbNoVecW.emails.length ∧
      simpleTextSearch ragAvailEnvW dbNoVecW "u" "a to do" 5 =
        { emails := [], contacts := [] } :=
  ⟨by decide,
    short_tokens_match_nothing ragAvailEnvW dbNoVecW "u" "a to do" 5 (by decide)⟩

/-- Helper: if a NULL-key row survives `ORDER BY key ASC LIMIT limit`, then
fewer than `limit` rows have a non-NULL key (NULLS LAST pushes every NULL-key
row behind all of them). -/
theorem length_filter_lt_of_mem_take_pgOrderAsc {α : Type} (key : α → Option Int)
    (rows : List α) (limit : Nat) (x : α)
    (hx : x ∈ (pgOrderAsc key rows).take limit) (hk : key x = none) :
    (rows.filter (fun r => (key r).isSome)).length < limit := by
  by_contra hge
  push_neg at hge
  have hlen : limit ≤ (List.insertionSort
      (fun a b => sqlAscLe (key a) (key b))
      (rows.filter (fun r => (key r).isSome))).length := by
    rw [List.Perm.length_eq (List.perm_insertionSort _ _)]
    exact hge
  rw [pgOrderAsc, List.take_append_of_le_length hlen] at hx
  have hxs := (List.perm_insertionSort (fun a b => sqlAscLe (key a) (key b))
      (rows.filter (fun r => (key r).isSome))).mem_iff.1 (List.mem_of_mem_take hx)
  have hsome := List.of_mem_filter hxs
  rw [hk] at hsome
  simp at hsome

/-- C2 (amended): the similarity-ranked path does not exclude items without
an embedding vector; their NULL distance sorts them after every item that has
a vector, so a vectorless item can appear in the similarity results of a
corpus only when fewer than `limit` of the user items in that corpus carry a
vector. -/
theorem similarity_ranks_vectorless_last (d : List Int → List Int → Int) (db : DB)
    (uid : String) (q : List Int) (limit : Nat) :
    (∀ e ∈ emailSimilarityQuery d db uid q limit, e.embedding = none →
        ((db.emails.filter (fun r => r.userId == uid)).filter
          (fun r => r.embedding.isSome)).length < limit) ∧
    (∀ c ∈ contactSimilarityQuery d db uid q limit, c.embedding = none →
        ((db.contacts.filter (fun r => r.userId == uid)).filter
          (fun r => r.embedding.isSome)).length < limit) := by
  constructor
  · intro e he hemb
    have hkey := length_filter_lt_of_mem_take_pgOrderAsc
        (fun r : EmailRec => vecDist d r.embedding q)
        (db.emails.filter (fun r => r.userId == uid)) limit e he
        (by simp [vecDist, hemb])
    have hfe : (db.emails.filter (fun r => r.userId == uid)).filter
        (fun r => r.embedding.isSome) =
        (db.emails.filter (fun r => r.userId == uid)).filter
        (fun r => (vecDist d r.embedding q).isSome) := by
      apply List.filter_congr
      intro r _
      cases hre : r.embedding <;> simp [vecDist, hre]
    rw [hfe]
    exact hkey
  · intro c hc hemb
    have hkey := length_filter_lt_of_mem_take_pgOrderAsc
        (fun r : ContactRec => vecDist d r.embedding q)
        (db.contacts.filter (fun r => r.userId == uid)) limit c hc
        (by simp [vecDist, hemb])
    have hfc : (db.contacts.filter (fun r => r.userId == uid)).filter
        (fun r => r.embedding.isSome) =
        (db.contacts.filter (fun r => r.userId == uid)).filter
        (fun r => (vecDist d r.embedding q).isSome) := by
      apply List.filter_congr
      intro r _
      cases hre : r.embedding <;> simp [vecDist, hre]
    rw [hfc]
    exact hkey

/-- Witness for the amended C2: the vectorless email of `dbNoVecW` is a
member of the similarity results, and indeed its user has fewer vectored
emails than the limit. -/
theorem similarity_ranks_vectorless_last_witness :
    ((dbNoVecW.emails.filter (fun r => r.userId == "u")).filter
      (fun r => r.embedding.isSome)).length < 5 :=
  (similarity_ranks_vectorless_last (fun _ _ => 0) dbNoVecW "u" [1] 5).1 emailNoVecW
    (by decide) rfl

/-- Counterexample to C2 as stated: with the embedding provider available and
both raw queries succeeding, the similarity-ranked result of the email corpus
contains the stored email even though its embedding is absent (its score is
the NULL distance); the claim says no such item ever appears. -/
theorem similarity_excludes_vectorless_counterexample :
    emailNoVecW.embedding = none ∧
      searchRelevantContextE (fun _ _ => 0) ragAvailEnvW dbNoVecW "u" "quarterly review" 5 =
        Except.ok
          { emails := [{ content := emailContent emailNoVecW,
                         subject := "Quarterly review",
                         fromAddr := "alice@example.com", date := 100, score := none }],
            contacts := [] } :=
  ⟨rfl, rfl⟩

/-- Helper: the tool loop emits exactly one result per invocation. -/
theorem runToolLoop_length (exec : ToolCall → Except String Value)
    (calls : List ToolCall) : (runToolLoop exec calls).length = calls.length := by
  induction calls with
  | nil => rfl
  | cons tc rest ih => simp [runToolLoop, ih]

/-- Helper: the i-th result of the tool loop is the wrapped outcome of the
i-th invocation. -/
theorem runToolLoop_get (exec : ToolCall → Except String Value) (calls : List ToolCall)
    (i : Nat) (hi : i < calls.length) (hr : i < (runToolLoop exec calls).length) :
    (runToolLoop exec calls).get ⟨i, hr⟩ = mkToolResult exec (calls.get ⟨i, hi⟩) := by
  induction calls generalizing i with
  | nil => exact absurd hi (by simp)
  | cons tc rest ih =>
    cases i with
    | zero => rfl
    | succ n =>
      exact ih n (Nat.lt_of_succ_lt_succ hi)
        (by simpa [runToolLoop] using Nat.lt_of_succ_lt_succ hr)

/-- Helper: shape of `processMessage` on the tool-call branch — the loop
results are attached, the completion is issued a second time, and the trace
records two model calls and exactly the first-reply invocations. -/
theorem processMessage_toolBranch (env : AgentEnv) (message : String)
    (hist : List ModelMsg) (u : Option UserRec) (m : ModelMsg) (calls : List ToolCall)
    (m2 : ModelMsg)
    (hav : env.isOpenAIAvailable = true)
    (hu : env.userLookup = Except.ok u)
    (h1 : env.firstResponse = Except.ok m)
    (hc : m.tool_calls = some calls)
    (h2 : env.secondResponse = Except.ok m2) :
    processMessage env message hist =
      Except.ok
        ({ content := m2.content, toolCalls := some calls,
           toolResults := runToolLoop (executeToolCall env.toolEnv) calls,
           meetingData := computeMeetingData calls
             (runToolLoop (executeToolCall env.toolEnv) calls) }, ⟨2, calls⟩) := by
  obtain ⟨ctx, hctx⟩ := getContextForQuestion_ok env.dist env.ragEnv env.db env.userId message
  simp [processMessage, hav, hctx, hu, h1, hc, h2]

/-- C1: on a model reply carrying tool invocations, `processMessage` yields
exactly one outcome per invocation, in invocation order; a successful handler
yields its payload, a throwing handler yields an outcome carrying the error
message, and neither stops the remaining invocations from producing their own
outcomes. -/
theorem processMessage_one_outcome_per_invocation (env : AgentEnv) (message : String)
    (hist : List ModelMsg) (u : Option UserRec) (m : ModelMsg) (calls : List ToolCall)
    (m2 : ModelMsg)
    (hav : env.isOpenAIAvailable = true)
    (hu : env.userLookup = Except.ok u)
    (h1 : env.firstResponse = Except.ok m)
    (hc : m.tool_calls = some calls)
    (h2 : env.secondResponse = Except.ok m2) :
    ∃ resp trace, processMessage env message hist = Except.ok (resp, trace) ∧
      resp.toolResults.length = calls.length ∧
      ∀ i (hi : i < calls.length) (hr : i < resp.toolResults.length),
        (resp.toolResults.get ⟨i, hr⟩).tool_call_id = (calls.get ⟨i, hi⟩).id ∧
        (∀ v, executeToolCall env.toolEnv (calls.get ⟨i, hi⟩) = Except.ok v →
            (resp.toolResults.get ⟨i, hr⟩).content = ToolContent.success v) ∧
        (∀ e, executeToolCall env.toolEnv (calls.get ⟨i, hi⟩) = Except.error e →
            (resp.toolResults.get ⟨i, hr⟩).content = ToolContent.failure e) := by
  refine ⟨_, _, processMessage_toolBranch env message hist u m calls m2 hav hu h1 hc h2,
    runToolLoop_length _ _, ?_⟩
  intro i hi hr
  have hg := runToolLoop_get (executeToolCall env.toolEnv) calls i hi hr
  refine ⟨by rw [hg]; rfl, ?_, ?_⟩
  · intro v hv
    rw [hg]
    unfold mkToolResult
    rw [hv]
  · intro e hev
    rw [hg]
    unfold mkToolResult
    rw [hev]

/-- Witness for C1 at a concrete environment: two invocations, the first
throwing, the second succeeding. -/
theorem processMessage_one_outcome_per_invocation_witness :
    ∃ resp trace, processMessage agentEnvW "Update my contacts" [] =
        Except.ok (resp, trace) ∧
      resp.toolResults.length = ([tcSearchContactsW, tcCreateContactW] : List ToolCall).length ∧
      ∀ i (hi : i < ([tcSearchContactsW, tcCreateContactW] : List ToolCall).length)
          (hr : i < resp.toolResults.length),
        (resp.toolResults.get ⟨i, hr⟩).tool_call_id =
          (([tcSearchContactsW, tcCreateContactW] : List ToolCall).get ⟨i, hi⟩).id ∧
        (∀ v, executeToolCall agentEnvW.toolEnv
              (([tcSearchContactsW, tcCreateContactW] : List ToolCall).get ⟨i, hi⟩) =
              Except.ok v →
            (resp.toolResults.get ⟨i, hr⟩).content = ToolContent.success v) ∧
        (∀ e, executeToolCall agentEnvW.toolEnv
              (([tcSearchContactsW, tcCreateContactW] : List ToolCall).get ⟨i, hi⟩) =
              Except.error e →
            (resp.toolResults.get ⟨i, hr⟩).content = ToolContent.failure e) :=
  processMessage_one_outcome_per_invocation agentEnvW "Update my contacts" []
    (some { ongoingInstructions := some "Log every client interaction" })
    { content := none, tool_calls := some [tcSearchContactsW, tcCreateContactW] }
    [tcSearchContactsW, tcCreateContactW]
    { content := some "Done.",
      tool_calls := some [{ id := "3", name := "send_email", arguments := "\x7b\x7d" }] }
    rfl rfl rfl rfl rfl

/-- C8: the tool loop runs at most one round per turn — after the outcomes
are collected the completion is issued exactly once more (two model calls in
total), and the dispatched invocations are exactly those of the first reply,
whatever tool invocations the second reply carries. -/
theorem processMessage_single_tool_round (env : AgentEnv) (message : String)
    (hist : List ModelMsg) (u : Option UserRec) (m : ModelMsg) (calls : List ToolCall)
    (m2 : ModelMsg)
    (hav : env.isOpenAIAvailable = true)
    (hu : env.userLookup = Except.ok u)
    (h1 : env.firstResponse = Except.ok m)
    (hc : m.tool_calls = some calls)
    (h2 : env.secondResponse = Except.ok m2) :
    ∃ resp, processMessage env message hist =
        Except.ok (resp, { modelCalls := 2, executedTools := calls }) ∧
      resp.toolCalls = some calls :=
  ⟨_, processMessage_toolBranch env message hist u m calls m2 hav hu h1 hc h2, rfl⟩

/-- Witness for C8 at a concrete environment whose second reply itself
requests a further tool invocation: the trace still records two model calls
and only the first-reply invocations. -/
theorem processMessage_single_tool_round_witness :
    ∃ resp, processMessage agentEnvW "Update my contacts" [] =
        Except.ok (resp,
          { modelCalls := 2, executedTools := [tcSearchContactsW, tcCreateContactW] }) ∧
      resp.toolCalls = some [tcSearchContactsW, tcCreateContactW] :=
  processMessage_single_tool_round agentEnvW "Update my contacts" []
    (some { ongoingInstructions := some "Log every client interaction" })
    { content := none, tool_calls := some [tcSearchContactsW, tcCreateContactW] }
    [tcSearchContactsW, tcCreateContactW]
    { content := some "Done.",
      tool_calls := some [{ id := "3", name := "send_email", arguments := "\x7b\x7d" }] }
    rfl rfl rfl rfl rfl

/-- Helper: a string append is non-empty when its right part is. -/
theorem append_len_pos (s t : String) (h : 0 < t.length) : 0 < (s ++ t).length := by
  rw [String.length_append]
  omega

set_option maxRecDepth 8192 in
/-- Helper: the templated fallback reply is never the empty string (it always
ends with the fixed capability footer). -/
theorem fallbackContent_len (message ctx : String) (instr : Option String) :
    0 < (fallbackContent message ctx instr).length := by
  simp only [fallbackContent]
  exact append_len_pos _ _ (by decide)

set_option maxRecDepth 8192 in
/-- Helper: whatever the oracles do, the fallback reply carries non-empty
text, an empty tool-invocation list, and no tool results. -/
theorem handleFallbackResponse_shape (env : AgentEnv) (message : String) :
    ∃ s, handleFallbackResponse env message =
        { content := some s, toolCalls := some [], toolResults := [],
          meetingData := none } ∧ 0 < s.length := by
  obtain ⟨ctx, hctx⟩ := getContextForQuestion_ok env.dist env.ragEnv env.db env.userId message
  cases hul : env.userLookup with
  | error e =>
    refine ⟨"I\x27m sorry, I\x27m experiencing technical difficulties. Please try again later or contact support.",
      ?_, by decide⟩
    rw [handleFallbackResponse, hctx, hul]
    rfl
  | ok user =>
    refine ⟨fallbackContent message ctx (userInstructions user), ?_,
      fallbackContent_len _ _ _⟩
    rw [handleFallbackResponse, hctx, hul]

/-- C4: when the completion provider was never initialized, `processMessage`
issues no tool invocation, performs zero model calls, and returns a response
whose text content is a non-empty string. -/
theorem processMessage_unavailable_fallback (env : AgentEnv) (message : String)
    (hist : List ModelMsg) (hoff : env.isOpenAIAvailable = false) :
    ∃ resp, processMessage env message hist =
        Except.ok (resp, { modelCalls := 0, executedTools := [] }) ∧
      resp.toolCalls = some [] ∧ resp.toolResults = [] ∧
      ∃ s, resp.content = some s ∧ 0 < s.length := by
  obtain ⟨s, hshape, hlen⟩ := handleFallbackResponse_shape env message
  refine ⟨handleFallbackResponse env message, ?_, ?_, ?_, s, ?_, hlen⟩
  · simp [processMessage, hoff]
  · rw [hshape]
  · rw [hshape]
  · rw [hshape]

/-- Witness for C4 at a concrete unavailable-provider environment. -/
theorem processMessage_unavailable_fallback_witness :
    ∃ resp, processMessage agentEnvOffW "What is on my calendar?" [] =
        Except.ok (resp, { modelCalls := 0, executedTools := [] }) ∧
      resp.toolCalls = some [] ∧ resp.toolResults = [] ∧
      ∃ s, resp.content = some s ∧ 0 < s.length :=
  processMessage_unavailable_fallback agentEnvOffW "What is on my calendar?" [] rfl

/-- C9 (amended): dispatching an invocation whose name is not one of the
eleven supported tool names always yields an error outcome and never a crash
past the loop boundary; when its argument bag parses, that outcome is the
`Unknown tool` error (when parsing fails, the outcome carries the parse error
instead). -/
theorem executeToolCall_unknown_tool (env : ToolEnv) (tc : ToolCall)
    (hname : tc.name ∉ supportedToolNames) :
    (∃ e, executeToolCall env tc = Except.error e) ∧
    (∀ a, env.parse tc.arguments = Except.ok a →
        executeToolCall env tc = Except.error ("Unknown tool: " ++ tc.name)) ∧
    (∃ e, (mkToolResult (executeToolCall env) tc).content = ToolContent.failure e) := by
  simp only [supportedToolNames, List.mem_cons, List.not_mem_nil, or_false, not_or] at hname
  obtain ⟨n1, n2, n3, n4, n5, n6, n7, n8, n9, n10, n11⟩ := hname
  have hrun : ∀ a, env.parse tc.arguments = Except.ok a →
      executeToolCall env tc = Except.error ("Unknown tool: " ++ tc.name) := by
    intro a hp
    simp [executeToolCall, hp, n1, n2, n3, n4, n5, n6, n7, n8, n9, n10, n11]
  have herr : ∃ e, executeToolCall env tc = Except.error e := by
    cases hp : env.parse tc.arguments with
    | error e =>
      refine ⟨e, ?_⟩
      rw [executeToolCall, hp]
    | ok a => exact ⟨_, hrun a hp⟩
  obtain ⟨e, he⟩ := herr
  refine ⟨⟨e, he⟩, hrun, e, ?_⟩
  unfold mkToolResult
  rw [he]

/-- Witness for the amended C9: a concrete unsupported invocation with
parseable arguments produces the `Unknown tool` error outcome. -/
theorem executeToolCall_unknown_tool_witness :
    (∃ e, executeToolCall toolEnvW
        { id := "9", name := "delete_account", arguments := "\x7b\x7d" } =
        Except.error e) ∧
    (∀ a, toolEnvW.parse "\x7b\x7d" = Except.ok a →
        executeToolCall toolEnvW
            { id := "9", name := "delete_account", arguments := "\x7b\x7d" } =
          Except.error ("Unknown tool: " ++ "delete_account")) ∧
    (∃ e, (mkToolResult (executeToolCall toolEnvW)
        { id := "9", name := "delete_account", arguments := "\x7b\x7d" }).content =
        ToolContent.failure e) :=
  executeToolCall_unknown_tool toolEnvW
    { id := "9", name := "delete_account", arguments := "\x7b\x7d" } (by decide)

/-- Counterexample to C9 as stated: an invocation with an unsupported name
and malformed argument JSON still yields an error outcome, but it is the
parse error, not the promised `Unknown tool` error. -/
theorem executeToolCall_unknown_tool_counterexample :
    "delete_account" ∉ supportedToolNames ∧
      executeToolCall toolEnvW { id := "9", name := "delete_account", arguments := "" } =
        Except.error "SyntaxError: Unexpected end of JSON input" ∧
      executeToolCall toolEnvW { id := "9", name := "delete_account", arguments := "" } ≠
        Except.error ("Unknown tool: " ++ "delete_account") :=
  ⟨by decide, rfl, fun h => absurd (Except.error.inj h) (by decide)⟩

/-- C6 (amended): with a per-request session token the handler tries the
session token first; on failure it falls back to the stored database token
once inside the session-establishment routine, and when that stored-token
read itself fails, the catch in the dispatcher reads the stored token a
second time — at most two stored-token reads, no further retries — before
the tool call fails with the acquisition error. -/
theorem gmail_credential_fallback (env : ToolEnv) (t : String)
    (hs : env.sessionToken = some t) :
    (∀ g, env.sessionAttempt = Except.ok g →
        acquireGmailCounted env = (Except.ok g, 0)) ∧
    (∀ e g, env.sessionAttempt = Except.error e →
        env.storedAttempts 0 = Except.ok g →
        acquireGmailCounted env = (Except.ok g, 1)) ∧
    (∀ e e2, env.sessionAttempt = Except.error e →
        env.storedAttempts 0 = Except.error e2 →
        acquireGmailCounted env = (env.storedAttempts 1, 2)) ∧
    acquireGmail env = (acquireGmailCounted env).1 ∧
    (∀ tc a e, tc.name = "search_emails" →
        env.parse tc.arguments = Except.ok a →
        acquireGmail env = Except.error e →
        executeToolCall env tc = Except.error e) := by
  refine ⟨?_, ?_, ?_, ?_, ?_⟩
  · intro g hg
    simp [acquireGmailCounted, hs, hg]
  · intro e g he hg
    simp [acquireGmailCounted, hs, he, hg]
  · intro e e2 he he2
    simp [acquireGmailCounted, hs, he, he2]
  · cases hsa : env.sessionAttempt with
    | ok g => simp [acquireGmail, acquireGmailCounted, createForUserWithSession, hs, hsa]
    | error e =>
      cases hst : env.storedAttempts 0 with
      | ok g =>
        simp [acquireGmail, acquireGmailCounted, createForUserWithSession, hs, hsa, hst]
      | error e2 =>
        simp [acquireGmail, acquireGmailCounted, createForUserWithSession, hs, hsa, hst]
  · intro tc a e hn hp hacq
    simp [executeToolCall, hp, hn, hacq]

/-- Witness for the amended C6: both the session attempt and the first
stored-token read fail, so the second stored-token read (also failing here)
decides the outcome and exactly two stored-token reads happen. -/
theorem gmail_credential_fallback_witness :
    acquireGmailCounted toolEnvBothFailW =
      (Except.error "Gmail not connected for this user. Please sign in with Google to connect your Gmail account.", 2) :=
  (gmail_credential_fallback toolEnvBothFailW "sess-tok" rfl).2.2.1 "Invalid Credentials"
    "Gmail not connected for this user. Please sign in with Google to connect your Gmail account."
    rfl rfl

/-- Counterexample to C6 as stated: in the same both-fail scenario the
stored-token fallback is attempted twice, not exactly once, before the tool
call fails. -/
theorem gmail_credential_fallback_counterexample :
    (acquireGmailCounted toolEnvBothFailW).2 = 2 ∧
      (acquireGmailCounted toolEnvBothFailW).2 ≠ 1 ∧
      executeToolCall toolEnvBothFailW
          { id := "5", name := "search_emails", arguments := "\x7b\x7d" } =
        Except.error "Gmail not connected for this user. Please sign in with Google to connect your Gmail account." :=
  ⟨rfl, by decide, rfl⟩

/-- C5 (amended): the webhook reactor dispatches the invocations of a
structured action strictly in order but only up to and including the first
failing one — a failure is caught and logged without being surfaced (the
reactor always resolves normally), yet it aborts the remaining invocations;
only when every invocation succeeds is the whole list executed. -/
theorem webhook_executes_until_first_failure :
    (∀ (env : WebhookEnv) (etype payload : String),
        (processWebhookEvent env etype payload).isOk = true) ∧
    (∀ (env : WebhookEnv) (etype payload : String) (user : Option UserRec)
        (instr : String) (content : Option String) (action : ActionObj)
        (calls : List ToolCall),
        env.isOpenAIAvailable = true →
        env.userLookup = Except.ok user →
        userInstructions user = some instr →
        env.response = Except.ok content →
        content ≠ some "NO_ACTION" →
        env.parseAction (contentOrEmptyObj content) = Except.ok action →
        action.toolCalls = some calls →
        processWebhookEvent env etype payload =
          Except.ok (webhookToolLoop (executeToolCall env.toolEnv) calls)) ∧
    (∀ (exec : ToolCall → Except String Value) (calls : List ToolCall),
        (∀ tc ∈ calls, (exec tc).isOk = true) →
        webhookToolLoop exec calls = calls) ∧
    (∀ (exec : ToolCall → Except String Value) (pre : List ToolCall) (tc : ToolCall)
        (post : List ToolCall),
        (∀ c ∈ pre, (exec c).isOk = true) → (exec tc).isOk = false →
        webhookToolLoop exec (pre ++ tc :: post) = pre ++ [tc]) := by
  refine ⟨?_, ?_, ?_, ?_⟩
  · intro env etype payload
    cases h : webhookTryBlock env with
    | ok r => simp [processWebhookEvent, h, Except.isOk, Except.toBool]
    | error e => simp [processWebhookEvent, h, Except.isOk, Except.toBool]
  · intro env etype payload user instr content action calls hav hul hinstr hresp hcont hpa hcalls
    have hblock : webhookTryBlock env =
        Except.ok (webhookToolLoop (executeToolCall env.toolEnv) calls) := by
      simp [webhookTryBlock, hav, hul, hinstr, hresp, hcont, hpa, hcalls]
    simp [processWebhookEvent, hblock]
  · intro exec calls hok
    induction calls with
    | nil => rfl
    | cons tc rest ih =>
      have h1 := hok tc (List.mem_cons_self tc rest)
      cases he : exec tc with
      | ok v =>
        simp [webhookToolLoop, he, ih (fun c hc => hok c (List.mem_cons_of_mem _ hc))]
      | error e =>
        rw [he] at h1
        simp [Except.isOk, Except.toBool] at h1
  · intro exec pre tc post hpre hfail
    induction pre with
    | nil =>
      cases he : exec tc with
      | ok v =>
        rw [he] at hfail
        simp [Except.isOk, Except.toBool] at hfail
      | error e => simp [webhookToolLoop, he]
    | cons c rest ih =>
      have hc := hpre c (List.mem_cons_self c rest)
      cases hce : exec c with
      | ok v =>
        have hstep : webhookToolLoop exec ((c :: rest) ++ tc :: post) =
            c :: webhookToolLoop exec (rest ++ tc :: post) := by
          simp [webhookToolLoop, hce]
        rw [hstep, ih (fun x hx => hpre x (List.mem_cons_of_mem _ hx))]
        rfl
      | error e =>
        rw [hce] at hc
        simp [Except.isOk, Except.toBool] at hc

/-- Witness for the amended C5: a structured action with two invocations that
both succeed is executed in full. -/
theorem webhook_executes_until_first_failure_witness :
    processWebhookEvent webhookEnvOkW "contact_updated" "payload" =
      Except.ok [tcSearchContactsW, tcCreateContactW] := by
  have h := webhook_executes_until_first_failure
  have h2 := h.2.1 webhookEnvOkW "contact_updated" "payload"
      (some { ongoingInstructions := some "When a contact changes, record a note" })
      "When a contact changes, record a note" (some "act")
      { toolCalls := some [tcSearchContactsW, tcCreateContactW] }
      [tcSearchContactsW, tcCreateContactW]
      rfl rfl rfl rfl (by decide) rfl rfl
  rw [h2]
  rw [h.2.2.1 (executeToolCall webhookEnvOkW.toolEnv)
      [tcSearchContactsW, tcCreateContactW] (by decide)]

/-- Counterexample to C5 as stated: the structured action lists two
invocations and the first one throws — its failure is swallowed (the reactor
resolves normally), but the second invocation is never dispatched, while the
claim promises that every invocation in the list is executed. -/
theorem webhook_continues_after_failure_counterexample :
    processWebhookEvent webhookEnvFailW "contact_updated" "payload" =
        Except.ok [tcSearchContactsW] ∧
      tcCreateContactW ∉ [tcSearchContactsW] :=
  ⟨rfl, by decide⟩

/-- Witness for C7 at a concrete corpus and query. -/
theorem lexical_hits_score_zero_and_recency_desc_witness :
    (∀ h ∈ (simpleTextSearch ragAvailEnvW dbLexW "u" "Quarterly" 5).emails,
        h.score = some 0) ∧
    (∀ h ∈ (simpleTextSearch ragAvailEnvW dbLexW "u" "Quarterly" 5).contacts,
        h.score = some 0) ∧
    (simpleTextSearch ragAvailEnvW dbLexW "u" "Quarterly" 5).emails.Pairwise
      (fun a b => b.date ≤ a.date) ∧
    (simpleTextSearch ragAvailEnvW dbLexW "u" "Quarterly" 5).contacts.Pairwise
      (fun a b => b.contact.createdAt ≤ a.contact.createdAt) :=
  lexical_hits_score_zero_and_recency_desc ragAvailEnvW dbLexW "u" "Quarterly" 5
